import Mathlib

/-
Verification of the Mava repository's visible sources: the setuptools packaging
script (src/setup.py) and the MAD4PG integration test
(src/tests/systems/mad4pg_system_test.py). Pure configuration data and the
control flow of both files are embedded shallowly; the parts of the mava
library that the test calls into but that are not among the given sources are
modelled from the specification, each such definition carrying a doc comment
saying so.
-/

namespace Mava

namespace SetupPy

/-- Requirement list `reverb_requirements` from src/setup.py. -/
def reverb_requirements : List String := ["dm-reverb~=0.6.1"]

/-- Requirement list `tf_requirements` from src/setup.py. -/
def tf_requirements : List String :=
  ["tensorflow~=2.7.0", "tensorflow_probability~=0.15.0", "dm-sonnet", "trfl"]

/-- Requirement list `jax_requirements` from src/setup.py: a JAX bundle with
`tf_requirements` appended. -/
def jax_requirements : List String :=
  ["chex", "jax", "jaxlib", "dm-haiku", "flax", "optax", "rlax"] ++ tf_requirements

/-- Requirement list `pettingzoo_requirements` from src/setup.py. -/
def pettingzoo_requirements : List String :=
  ["pettingzoo~=1.17.0", "multi_agent_ale_py", "supersuit==3.3.4", "pygame", "pysc2"]

/-- Requirement list `launchpad_requirements` from src/setup.py. -/
def launchpad_requirements : List String := ["dm-launchpad~=0.3.2"]

/-- Requirement list `smac_requirements` from src/setup.py. -/
def smac_requirements : List String :=
  ["pysc2", "SMAC @ git+https://github.com/oxwhirl/smac.git"]

/-- Requirement list `testing_formatting_requirements` from src/setup.py. -/
def testing_formatting_requirements : List String :=
  ["pytest==6.2.4", "pre-commit", "mypy==0.941", "pytest-xdist", "flake8==3.8.2",
   "black==22.3.0", "pytest-cov", "interrogate", "pydocstyle", "types-six"]

/-- Requirement list `record_episode_requirements` from src/setup.py. -/
def record_episode_requirements : List String := ["array2gif"]

/-- Requirement list `flatland_requirements` from src/setup.py. -/
def flatland_requirements : List String := ["flatland-rl==3.0.1"]

/-- Requirement list `open_spiel_requirements` from src/setup.py. -/
def open_spiel_requirements : List String := ["open_spiel"]

/-- The `install_requires` list passed to setup() in src/setup.py. -/
def install_requires : List String :=
  ["dm-acme~=0.2.4", "chex", "absl-py", "dm_env", "dm-tree", "numpy~=1.21.4",
   "pillow", "matplotlib", "dataclasses", "box2d-py", "gym<=0.23.0"]

/-- The `extras_require` mapping passed to setup() in src/setup.py, as an
association list preserving the source's key order. -/
def extras_require : List (String × List String) :=
  [("tf", tf_requirements),
   ("pz", pettingzoo_requirements),
   ("flatland", flatland_requirements),
   ("open_spiel", open_spiel_requirements),
   ("reverb", reverb_requirements),
   ("launchpad", launchpad_requirements),
   ("testing_formatting", testing_formatting_requirements),
   ("record_episode", record_episode_requirements),
   ("sc2", smac_requirements),
   ("envs", pettingzoo_requirements ++ open_spiel_requirements ++ smac_requirements),
   ("jax", jax_requirements)]

/-- The `classifiers` list passed to setup() in src/setup.py. -/
def classifiers : List String :=
  ["Development Status :: 3 - Alpha",
   "Environment :: Console",
   "Intended Audience :: Science/Research",
   "License :: OSI Approved :: Apache Software License",
   "Operating System :: POSIX :: Linux",
   "Programming Language :: Python :: 3",
   "Programming Language :: Python :: 3.7",
   "Programming Language :: Python :: 3.8",
   "Programming Language :: Python :: 3.9",
   "Topic :: Scientific/Engineering :: Artificial Intelligence"]

/-- The nightly flag token tested for in src/setup.py line 90. -/
def nightlyFlag : String := "--nightly"

/-- Zero-pad a natural number to two digits, as strftime %m and %d do. -/
def pad2 (n : Nat) : String :=
  if n < 10 then "0" ++ toString n else toString n

/-- Zero-pad a natural number to four digits, as strftime %Y does. -/
def pad4 (n : Nat) : String :=
  if n < 10 then "000" ++ toString n
  else if n < 100 then "00" ++ toString n
  else if n < 1000 then "0" ++ toString n
  else toString n

/-- The date format "%Y%m%d" used by src/setup.py line 92 for nightly versions. -/
def strftimeYMD (y m d : Nat) : String := pad4 y ++ pad2 m ++ pad2 d

/-- Python's list.remove(x): delete the first occurrence of x. In src/setup.py
it is only reached when x is a member, so the missing-element error path of
list.remove is never taken and the function is modelled total. -/
def listRemoveFirst (x : String) : List String → List String
  | [] => []
  | a :: rest => if a = x then rest else a :: listRemoveFirst x rest

/-- The keyword arguments that src/setup.py passes to setuptools.setup(). -/
structure SetupArgs where
  name : String
  version : String
  description : String
  author : String
  license : String
  install_requires : List String
  extras_require : List (String × List String)
  classifiers : List String
  deriving DecidableEq, Repr

/-- The whole control flow of src/setup.py after the metadata module is
loaded: given the metadata version string, the initial sys.argv and the
current date, compute the final sys.argv (lines 90-92) and the arguments
passed to setup() (lines 94-142). -/
def runSetup (metadataVersion : String) (argv : List String) (y m d : Nat) :
    List String × SetupArgs :=
  let p : List String × String :=
    if nightlyFlag ∈ argv then
      (listRemoveFirst nightlyFlag argv,
       metadataVersion ++ ".dev" ++ strftimeYMD y m d)
    else (argv, metadataVersion)
  (p.1,
   { name := "id-mava"
     version := p.2
     description := "A Python library for Multi-Agent Reinforcement Learning."
     author := "InstaDeep Ltd"
     license := "Apache License, Version 2.0"
     install_requires := install_requires
     extras_require := extras_require
     classifiers := classifiers })

end SetupPy

namespace MAD4PGTest

/-- The four configuration variants exercised by the four test methods of
TestMAD4PG in src/tests/systems/mad4pg_system_test.py. -/
inductive Variant
  | feedforward
  | recurrent
  | centralised
  | stateBased
  deriving DecidableEq, Repr

/-- Keyword arguments the tests bind into debugging_utils.make_environment.
return_state_info defaults to false and is set only by the state-based test. -/
structure EnvConfig where
  env_name : String
  action_space : String
  return_state_info : Bool := false
  deriving DecidableEq, Repr

/-- The environment factory each test variant builds (functools.partial over
debugging_utils.make_environment). -/
def environment_factory : Variant → EnvConfig
  | .stateBased =>
      { env_name := "simple_spread", action_space := "continuous",
        return_state_info := true }
  | _ => { env_name := "simple_spread", action_space := "continuous" }

/-- mava.utils.enums.ArchitectureType, as selected by the tests. -/
inductive ArchitectureType
  | feedforward
  | recurrent
  deriving DecidableEq, Repr

/-- Keyword arguments the tests bind into mad4pg.make_default_networks.
The architecture_type defaults to feedforward and is overridden only by the
recurrent test. -/
structure NetworkFactoryConfig where
  architecture_type : ArchitectureType := .feedforward
  policy_networks_layer_sizes : List Nat
  vmin : Int
  vmax : Int
  deriving DecidableEq, Repr

/-- The network factory each test variant builds. -/
def network_factory : Variant → NetworkFactoryConfig
  | .feedforward =>
      { policy_networks_layer_sizes := [64, 64], vmin := -10, vmax := 50 }
  | .recurrent =>
      { architecture_type := .recurrent,
        policy_networks_layer_sizes := [32, 32], vmin := -10, vmax := 50 }
  | .centralised =>
      { policy_networks_layer_sizes := [32, 32], vmin := -10, vmax := 50 }
  | .stateBased =>
      { policy_networks_layer_sizes := [32, 32], vmin := -10, vmax := 50 }

/-- The architecture classes the tests pass (default decentralised). -/
inductive Architecture
  | DecentralisedQValueActorCritic
  | CentralisedQValueCritic
  | StateBasedQValueCritic
  deriving DecidableEq, Repr

/-- The trainer classes the tests pass (default decentralised feedforward). -/
inductive TrainerFn
  | MAD4PGDecentralisedTrainer
  | MAD4PGDecentralisedRecurrentTrainer
  | MAD4PGCentralisedTrainer
  | MAD4PGStateBasedTrainer
  deriving DecidableEq, Repr

/-- The executor classes the tests pass (default feedforward). -/
inductive ExecutorFn
  | MAD4PGFeedForwardExecutor
  | MAD4PGRecurrentExecutor
  deriving DecidableEq, Repr

/-- Keyword arguments the tests pass to the MAD4PG constructor. Fields the
tests leave unset carry the defaults of the external MAD4PG class, modelled
from the spec: the default variant is the feedforward/decentralised one with
shared weights. -/
structure SystemConfig where
  num_executors : Nat
  batch_size : Nat
  min_replay_size : Nat
  max_replay_size : Nat
  checkpoint : Bool
  architecture : Architecture := .DecentralisedQValueActorCritic
  trainer_fn : TrainerFn := .MAD4PGDecentralisedTrainer
  executor_fn : ExecutorFn := .MAD4PGFeedForwardExecutor
  shared_weights : Bool := true
  sequence_length : Option Nat := none
  period : Option Nat := none
  bootstrap_n : Option Nat := none
  deriving DecidableEq, Repr

/-- The MAD4PG constructor arguments of each test variant, read off the four
test methods of src/tests/systems/mad4pg_system_test.py. -/
def system_config : Variant → SystemConfig
  | .feedforward =>
      { num_executors := 1, batch_size := 32, min_replay_size := 32,
        max_replay_size := 1000, checkpoint := false }
  | .recurrent =>
      { num_executors := 1, batch_size := 16, min_replay_size := 16,
        max_replay_size := 1000, checkpoint := false,
        trainer_fn := .MAD4PGDecentralisedRecurrentTrainer,
        executor_fn := .MAD4PGRecurrentExecutor,
        sequence_length := some 4, period := some 4, bootstrap_n := some 2 }
  | .centralised =>
      { num_executors := 1, batch_size := 16, min_replay_size := 16,
        max_replay_size := 1000, checkpoint := false,
        architecture := .CentralisedQValueCritic,
        trainer_fn := .MAD4PGCentralisedTrainer,
        shared_weights := false }
  | .stateBased =>
      { num_executors := 1, batch_size := 16, min_replay_size := 16,
        max_replay_size := 1000, checkpoint := false,
        trainer_fn := .MAD4PGStateBasedTrainer,
        architecture := .StateBasedQValueCritic,
        shared_weights := false }

/-- The nodes_on_gpu argument every test passes to lp_utils.to_device. -/
def nodes_on_gpu : List String := []

/-- The number of trainer.step() calls each test makes: range(2). -/
def trainerSteps : Nat := 2

/-- Events of a test run, in program order. A step call is modelled as a
begin event followed by its matching end event so that synchrony (each call
returning before the next begins) is expressible. -/
inductive Ev
  | constructSystem
  | buildProgram
  | disableRun
  | launch (launch_type : String)
  | stepBegin
  | stepEnd
  deriving DecidableEq, Repr

/-- The trace of n synchronous trainer.step() calls. -/
def stepTrace : Nat → List Ev
  | 0 => []
  | n + 1 => Ev.stepBegin :: Ev.stepEnd :: stepTrace n

/-- The event trace of one test method: construct the system, build the
program, disable the trainer node's run, launch with launch_type test_mt,
then step the trainer trainerSteps times in a synchronous loop. All four
test methods share this shape. -/
def testTrace (_v : Variant) : List Ev :=
  [Ev.constructSystem, Ev.buildProgram, Ev.disableRun, Ev.launch "test_mt"]
    ++ stepTrace trainerSteps

/-- A launchpad program: named node groups with their node counts. -/
structure Program where
  groups : List (String × Nat)
  deriving DecidableEq, Repr

/-- Modelled from the spec: MAD4PG.build of mava.systems.tf.mad4pg is not
among the given sources. The spec describes the system as a distributed
actor-learner architecture with executor and trainer roles and a replay
buffer, whose trainer loop the test drives through the single trainer node it
unpacks from the "trainer" group; the modelled program therefore has one
replay node, one trainer node and num_executors executor nodes. -/
def build (cfg : SystemConfig) : Program :=
  { groups := [("replay", 1), ("trainer", 1), ("executor", cfg.num_executors)] }

/-- Modelled from the spec: mava.utils.lp_utils.to_device is not among the
given sources. Per the tests' "Launch gpu config - don't use gpu" comment it
places the program nodes listed in nodes_on_gpu on the GPU and every other
node on the CPU. -/
def to_device (gpuNodes : List String) (group : String) : String :=
  if group ∈ gpuNodes then "gpu" else "cpu"

/-- Modelled from the spec: whether the system performs checkpointing. The
spec's only statement is that the tests construct the system with
checkpoint=False so that no checkpointing occurs; checkpointing is performed
exactly when the checkpoint flag is set. -/
def performsCheckpointing (cfg : SystemConfig) : Bool := cfg.checkpoint

/-- Modelled from the spec: debugging_utils.make_environment is not among the
given sources. The spec describes a fixed small multi-agent debugging
environment suite containing the simple_spread environment with a choice of
action space; construction fails on an unknown environment name or action
space. -/
def make_environment (cfg : EnvConfig) : Except String Unit :=
  if cfg.env_name = "simple_spread" ∧
      (cfg.action_space = "continuous" ∨ cfg.action_space = "discrete") then
    Except.ok ()
  else Except.error "unsupported debugging environment"

/-- Modelled from the spec: the MAD4PG constructor is not among the given
sources. The spec requires a system built over at least one executor and a
replay buffer whose minimum and batch sizes fit within its maximum size;
construction fails on a configuration violating that. -/
def constructSystem (cfg : SystemConfig) : Except String Unit :=
  if 1 ≤ cfg.num_executors ∧ 0 < cfg.batch_size ∧
      cfg.min_replay_size ≤ cfg.max_replay_size ∧
      cfg.batch_size ≤ cfg.max_replay_size then
    Except.ok ()
  else Except.error "invalid system configuration"

/-- Modelled from the spec: lp.launch is not among the given sources. The
tests launch with the multithreaded test launch type test_mt; an unknown
launch type fails. -/
def launchProgram (_p : Program) (launch_type : String) : Except String Unit :=
  if launch_type = "test_mt" then Except.ok ()
  else Except.error "unknown launch type"

/-- Modelled from the spec: trainer.step of the external trainer classes is
not among the given sources. A step samples a batch from replay and updates
the networks; it fails when the configured batch cannot fit in the replay
buffer. -/
def trainerStepOnce (cfg : SystemConfig) : Except String Unit :=
  if cfg.batch_size ≤ cfg.max_replay_size ∧
      cfg.min_replay_size ≤ cfg.max_replay_size then
    Except.ok ()
  else Except.error "trainer step failed"

/-- n synchronous trainer steps in sequence, stopping at the first error. -/
def trainerStepN : Nat → SystemConfig → Except String Unit
  | 0, _ => Except.ok ()
  | n + 1, cfg => do
    trainerStepOnce cfg
    trainerStepN n cfg

/-- One whole test method of TestMAD4PG, as a fallible computation: make the
environment, construct the system, build the program, launch it with
launch_type test_mt, then step the trainer trainerSteps times. -/
def runTest (v : Variant) : Except String Unit := do
  make_environment (environment_factory v)
  constructSystem (system_config v)
  let p := build (system_config v)
  launchProgram p "test_mt"
  trainerStepN trainerSteps (system_config v)

/-- Count of trainer step calls (begin events) in a trace. -/
def numStepCalls (t : List Ev) : Nat :=
  t.countP (fun e => e == Ev.stepBegin)

/-- Check that step calls in a trace are synchronous: scanning left to right
with a flag for a step call being open, a call may begin only when no call is
open, an end must close an open call, and no call is left open at the end. -/
def syncCheck : Bool → List Ev → Bool
  | inCall, [] => !inCall
  | inCall, Ev.stepBegin :: t => !inCall && syncCheck true t
  | inCall, Ev.stepEnd :: t => inCall && syncCheck false t
  | inCall, _ :: t => syncCheck inCall t

/-- Check that every launch event of a trace is preceded by a disableRun
event: scanning left to right, the flag records whether disableRun was seen. -/
def disabledBeforeLaunch : Bool → List Ev → Bool
  | _, [] => true
  | _, Ev.disableRun :: t => disabledBeforeLaunch true t
  | seen, Ev.launch _ :: t => seen && disabledBeforeLaunch seen t
  | seen, _ :: t => disabledBeforeLaunch seen t

/-- The launch type carried by an event, when the event is a launch. -/
def launchTypeOf : Ev → Option String
  | Ev.launch lt => some lt
  | _ => none

end MAD4PGTest

end Mava

namespace Mava

namespace SetupPy

/-- Python list.remove deletes exactly the first occurrence: when x is a
member of l, l splits as l1 ++ x :: l2 with x not in l1, and removal yields
l1 ++ l2, every other element kept in order. -/
theorem listRemoveFirst_spec (x : String) :
    ∀ l : List String, x ∈ l →
      ∃ l1 l2, l = l1 ++ x :: l2 ∧ x ∉ l1 ∧ listRemoveFirst x l = l1 ++ l2 := by
  intro l
  induction l with
  | nil => intro h; cases h
  | cons a t ih =>
    intro h
    by_cases hax : a = x
    · exact ⟨[], t, by simp [hax], by simp, by simp [listRemoveFirst, hax]⟩
    · have hx : x ∈ t := by
        rcases List.mem_cons.mp h with h1 | h1
        · exact absurd h1.symm hax
        · exact h1
      obtain ⟨l1, l2, h1, h2, h3⟩ := ih hx
      refine ⟨a :: l1, l2, by simp [h1], ?_, by simp [listRemoveFirst, hax, h3]⟩
      intro hm
      rcases List.mem_cons.mp hm with h4 | h4
      · exact hax h4.symm
      · exact h2 h4

/-- C2: the version string passed to setup() equals the metadata module's
version, with ".dev" followed by the current date formatted as YYYYMMDD
appended exactly when "--nightly" appears in sys.argv, and unchanged
otherwise. -/
theorem version_nightly_suffix (mv : String) (argv : List String) (y m d : Nat) :
    (runSetup mv argv y m d).2.version =
      if nightlyFlag ∈ argv then mv ++ ".dev" ++ strftimeYMD y m d else mv := by
  by_cases h : nightlyFlag ∈ argv <;> simp [runSetup, h]

/-- C3 counterexample: two invocations of setup.py that differ only in the
command-line arguments (one passes "--nightly", one passes nothing) configure
different package arguments: the version strings differ. -/
theorem cli_invariance_counterexample :
    ¬ ((runSetup "0.1.3" [nightlyFlag] 2026 10 12).2 =
       (runSetup "0.1.3" [] 2026 10 12).2) := by
  decide

/-- C3 amended: the arguments configured for the package depend on the
command line only through whether the "--nightly" token appears; any two
invocations agreeing on that configure identical arguments. -/
theorem cli_invariance_amended (mv : String) (y m d : Nat)
    (argv1 argv2 : List String)
    (h : (nightlyFlag ∈ argv1) ↔ (nightlyFlag ∈ argv2)) :
    (runSetup mv argv1 y m d).2 = (runSetup mv argv2 y m d).2 := by
  by_cases h1 : nightlyFlag ∈ argv1
  · have h2 : nightlyFlag ∈ argv2 := h.mp h1
    simp [runSetup, h1, h2]
  · have h2 : nightlyFlag ∉ argv2 := fun hh => h1 (h.mpr hh)
    simp [runSetup, h1, h2]

/-- C3 amended witness: two concrete invocations that both pass "--nightly"
among otherwise different arguments configure identical package arguments. -/
theorem cli_invariance_amended_witness :
    (runSetup "0.1.3" ["a", nightlyFlag] 2026 10 12).2 =
    (runSetup "0.1.3" [nightlyFlag, "b"] 2026 10 12).2 :=
  cli_invariance_amended "0.1.3" 2026 10 12 ["a", nightlyFlag] [nightlyFlag, "b"]
    (by decide)

/-- C4: the extras_require mapping has the tensorflow bundle under "tf", a
JAX bundle under "jax" containing every requirement of the "tf" bundle, the
environment-suite bundles under "pz", "flatland", "open_spiel" and "sc2",
the "envs" bundle equal to the concatenation of the pettingzoo, open_spiel
and smac requirement lists, and the testing/formatting bundle under
"testing_formatting". -/
theorem extras_require_structure :
    extras_require.lookup "tf" = some tf_requirements ∧
    extras_require.lookup "jax" = some jax_requirements ∧
    (tf_requirements.all fun r => jax_requirements.contains r) = true ∧
    extras_require.lookup "pz" = some pettingzoo_requirements ∧
    extras_require.lookup "flatland" = some flatland_requirements ∧
    extras_require.lookup "open_spiel" = some open_spiel_requirements ∧
    extras_require.lookup "sc2" = some smac_requirements ∧
    extras_require.lookup "envs" =
      some (pettingzoo_requirements ++ open_spiel_requirements ++ smac_requirements) ∧
    extras_require.lookup "testing_formatting" =
      some testing_formatting_requirements := by
  decide

/-- C10: when "--nightly" appears in sys.argv, exactly its first occurrence
is removed before setup() is called and every other element is kept in
order; when it does not appear, sys.argv is left unchanged. -/
theorem argv_frame (mv : String) (y m d : Nat) (argv : List String) :
    (nightlyFlag ∈ argv →
      ∃ l1 l2, argv = l1 ++ nightlyFlag :: l2 ∧ nightlyFlag ∉ l1 ∧
        (runSetup mv argv y m d).1 = l1 ++ l2) ∧
    (nightlyFlag ∉ argv → (runSetup mv argv y m d).1 = argv) := by
  constructor
  · intro h
    obtain ⟨l1, l2, h1, h2, h3⟩ := listRemoveFirst_spec nightlyFlag argv h
    exact ⟨l1, l2, h1, h2, by simp [runSetup, h, h3]⟩
  · intro h
    simp [runSetup, h]

/-- C10 witness: on a concrete sys.argv holding two "--nightly" tokens the
first one is removed, and a concrete sys.argv without the token is left
unchanged. -/
theorem argv_frame_witness :
    (∃ l1 l2,
        (["x", nightlyFlag, "y", nightlyFlag] : List String) =
          l1 ++ nightlyFlag :: l2 ∧ nightlyFlag ∉ l1 ∧
        (runSetup "0.1.3" ["x", nightlyFlag, "y", nightlyFlag] 2026 10 12).1 =
          l1 ++ l2) ∧
    (runSetup "0.1.3" ["x"] 2026 10 12).1 = ["x"] :=
  ⟨(argv_frame "0.1.3" 2026 10 12 ["x", nightlyFlag, "y", nightlyFlag]).1
      (by decide),
   (argv_frame "0.1.3" 2026 10 12 ["x"]).2 (by decide)⟩

end SetupPy

namespace MAD4PGTest

/-- C1: for each of the four configuration variants, constructing the MAD4PG
system, building and launching its program, and stepping the trainer the
fixed number of times coded in the test completes without any error. -/
theorem all_variants_run_ok : ∀ v : Variant, runTest v = Except.ok () := by
  intro v
  cases v <;> rfl

/-- C5: in every test variant the trainer's step function is invoked exactly
two times, synchronously: each call returns before the next begins. -/
theorem two_synchronous_steps :
    ∀ v : Variant,
      numStepCalls (testTrace v) = 2 ∧ syncCheck false (testTrace v) = true := by
  intro v
  cases v <;> exact ⟨rfl, rfl⟩

/-- C6: every test variant builds its environment factory from the same fixed
debugging environment, env_name "simple_spread" with continuous action space,
and return_state_info is requested exactly by the state-based variant. -/
theorem env_factory_fixed :
    ∀ v : Variant,
      (environment_factory v).env_name = "simple_spread" ∧
      (environment_factory v).action_space = "continuous" ∧
      (environment_factory v).return_state_info =
        decide (v = Variant.stateBased) := by
  intro v
  cases v <;> exact ⟨rfl, rfl, rfl⟩

/-- C7: every test variant uses a small configuration: one executor,
batch_size at most 32, min_replay_size equal to batch_size, max_replay_size
equal to 1000, and every policy-network layer size at most 64. -/
theorem small_configuration :
    ∀ v : Variant,
      (system_config v).num_executors = 1 ∧
      (system_config v).batch_size ≤ 32 ∧
      (system_config v).min_replay_size = (system_config v).batch_size ∧
      (system_config v).max_replay_size = 1000 ∧
      ((network_factory v).policy_networks_layer_sizes.all
        fun n => decide (n ≤ 64)) = true := by
  intro v
  cases v <;> refine ⟨rfl, by decide, rfl, rfl, rfl⟩

/-- C8: in every test variant the built program's "trainer" group holds
exactly one node, and that node's run is disabled before the program is
launched. -/
theorem trainer_single_node_disabled :
    ∀ v : Variant,
      (build (system_config v)).groups.lookup "trainer" = some 1 ∧
      disabledBeforeLaunch false (testTrace v) = true := by
  intro v
  cases v <;> exact ⟨rfl, rfl⟩

/-- C9: every test variant constructs the system with checkpoint set to
false, so no checkpointing is performed; every launch event in the test
trace uses launch_type "test_mt"; and with nodes_on_gpu empty every node
group of the built program is placed on the CPU. -/
theorem no_gpu_no_checkpoint :
    ∀ v : Variant,
      (system_config v).checkpoint = false ∧
      performsCheckpointing (system_config v) = false ∧
      Ev.launch "test_mt" ∈ testTrace v ∧
      ((testTrace v).all fun e =>
        launchTypeOf e == none || launchTypeOf e == some "test_mt") = true ∧
      ((build (system_config v)).groups.all fun g =>
        to_device nodes_on_gpu g.1 == "cpu") = true := by
  intro v
  cases v <;> exact ⟨rfl, rfl, by decide, rfl, rfl⟩

end MAD4PGTest

end Mava
